import Mathlib

/-!
Verification development for the f1news feed scraper
(src/f1news/__main__.py).

The program fetches a Reddit RSS feed, crawls every submission page,
keeps the pages whose flair is the News flair, extracts each kept
page's outbound article link, and rewrites the feed so that every
surviving entry points at the article instead of the Reddit page.

The extractor (default_handler), the result aggregation loop of
scrape, and the feed-filter loop of main are embedded directly from
the source. The crawl scheduler (retry / drop policy) lives in the
crawlee library, which is a collaborator outside the repository's
sources; it is modelled from the specification where noted.
-/

set_option autoImplicit false

namespace F1News

/-! ## String utilities
Helpers mirroring the Python string operations used by the source:
substring containment (the CSS substring attribute selector), the
plus-to-space and percent decoding done by urllib.parse.unquote, and
urllib.parse.parse_qs. -/

/-- Does the pattern match at the head of the character list? -/
def subAt : List Char → List Char → Bool
  | [], _ => true
  | _ :: _, [] => false
  | p :: ps, c :: cs => p == c && subAt ps cs

/-- Does the pattern occur anywhere inside the character list? -/
def hasSubAux (pat : List Char) : List Char → Bool
  | [] => subAt pat []
  | c :: cs => subAt pat (c :: cs) || hasSubAux pat cs

/-- Substring containment on strings; the semantics of the CSS
attribute selector written with starred equality. -/
def strHasSub (s pat : String) : Bool :=
  hasSubAux pat.data s.data

/-- Split a character list on every occurrence of a separator, the
semantics of the Python str.split with a one-character separator: the
empty input yields one empty segment, and n separators yield n+1
segments. -/
def splitChar (sep : Char) : List Char → List (List Char)
  | [] => [[]]
  | c :: rest =>
    if c == sep then [] :: splitChar sep rest
    else
      match splitChar sep rest with
      | [] => [[c]]
      | h :: t => (c :: h) :: t

/-- Join segments with a separator character: the inverse of splitChar
and the semantics of joining on the separator, used to model a Python
split bounded to one split (head segment, remainder rejoined). -/
def joinChar (sep : Char) : List (List Char) → List Char
  | [] => []
  | [x] => x
  | x :: xs => x ++ sep :: joinChar sep xs

/-- Numeric value of a hexadecimal digit, if the character is one. -/
def hexVal (c : Char) : Option Nat :=
  if '0' ≤ c ∧ c ≤ '9' then some (c.toNat - '0'.toNat)
  else if 'a' ≤ c ∧ c ≤ 'f' then some (c.toNat - 'a'.toNat + 10)
  else if 'A' ≤ c ∧ c ≤ 'F' then some (c.toNat - 'A'.toNat + 10)
  else none

/-- The plus-to-space replacement urllib.parse.parse_qsl applies to
each name and value before unquoting. -/
def plusToSpace (s : String) : String :=
  String.mk (s.data.map (fun c => if c == '+' then ' ' else c))

/-- Percent decoding of urllib.parse.unquote: a percent sign followed
by two hex digits becomes the corresponding character; an invalid
escape is kept verbatim. (Multi-byte UTF-8 escapes are out of scope of
the pages this program inspects; ASCII escapes are decoded exactly.) -/
def pctDecode : List Char → List Char
  | '%' :: a :: b :: rest =>
    match hexVal a, hexVal b with
    | some x, some y => Char.ofNat (16 * x + y) :: pctDecode rest
    | _, _ => '%' :: pctDecode (a :: b :: rest)
  | c :: rest => c :: pctDecode rest
  | [] => []

/-- unquote_plus: plus-to-space, then percent decoding. -/
def unquoteStr (s : String) : String :=
  String.mk (pctDecode (plusToSpace s).data)

/-- urllib.parse.parse_qsl with default options: split the query on
ampersands, skip empty fragments, split each fragment on the first
equals sign, skip fragments without one and fragments whose raw value
is empty, and unquote names and values. -/
def qsPairs (qs : String) : List (String × String) :=
  (splitChar '&' qs.data).filterMap (fun nv =>
    if nv.isEmpty then none
    else
      match splitChar '=' nv with
      | [] => none
      | [_] => none
      | name :: rest =>
        let value := joinChar '=' rest
        if value.isEmpty then none
        else some (unquoteStr (String.mk name), unquoteStr (String.mk value)))

/-- First value of a query parameter: parse_qs groups parse_qsl pairs
by name keeping value order, and the source reads element zero of the
group, which is the first pair carrying the name. -/
def firstQsValue (qs key : String) : Option String :=
  ((qsPairs qs).find? (fun p => p.1 == key)).map Prod.snd

/-! ## DOM model and the extractor (default_handler) -/

/-- An anchor element of the parsed submission page, restricted to the
attributes the two CSS selectors of default_handler inspect. -/
structure Anchor where
  href : Option String
  ariaLabel : Option String
  target : Option String
  rel : Option String
deriving DecidableEq

/-- A parsed page is its anchors in document order; select_one returns
the first anchor satisfying the selector. -/
def selectOne (p : Anchor → Bool) (soup : List Anchor) : Option Anchor :=
  soup.find? p

/-- The flair-filter selector: an anchor whose href contains the
marker substring "/r/formula1/?f=flair_name". -/
def flairSelector (a : Anchor) : Bool :=
  match a.href with
  | some h => strHasSub h "/r/formula1/?f=flair_name"
  | none => false

/-- The outbound-article selector: an anchor with an aria-label, a
target equal to "_blank", and a rel containing both "nofollow" and
"noopener". -/
def articleSelector (a : Anchor) : Bool :=
  a.ariaLabel.isSome && a.target == some "_blank" &&
    (match a.rel with
     | some r => strHasSub r "nofollow" && strHasSub r "noopener"
     | none => false)

/-- The sentinel the extracted flair parameter is compared against. -/
def newsSentinel : String := "flair_name:\":post-news: News\""

/-- Outcome of running the extractor on a fetched page. Accepted
carries the submission URL and the article URL; NotNews is the early
return of default_handler; MalformedPage stands for every path on
which the handler raises because an expected element or attribute is
absent (a missing anchor, an href without exactly one question mark,
or a query string without an f parameter). -/
inductive ExtractionResult where
  | NotNews
  | Accepted (reddit_url article_url : String)
  | MalformedPage
deriving DecidableEq

/-- The first half of default_handler: select the flair anchor, split
its href on the question mark into exactly two parts, and read the
first value of the f parameter of the query string. none on every path
where the handler would raise. -/
def flair_f_value (soup : List Anchor) : Option String :=
  match selectOne flairSelector soup with
  | none => none
  | some flair_link =>
    match flair_link.href with
    | none => none
    | some href =>
      match splitChar '?' href.data with
      | [_, query_string] => firstQsValue (String.mk query_string) "f"
      | _ => none

/-- default_handler from the source: flair check first (NotNews on a
flair other than the News sentinel), then the outbound-article anchor,
whose href is the article URL pushed with the submission URL. -/
def default_handler (source_url : String) (soup : List Anchor) :
    ExtractionResult :=
  match flair_f_value soup with
  | none => .MalformedPage
  | some f_param_value =>
    if f_param_value != newsSentinel then .NotNews
    else
      match selectOne articleSelector soup with
      | none => .MalformedPage
      | some article_link =>
        match article_link.href with
        | none => .MalformedPage
        | some article_url => .Accepted source_url article_url

/-! ## Crawl scheduler
The fetch-retry loop is executed by the crawlee BeautifulSoupCrawler,
a library collaborator whose code is not part of this repository; the
source only configures it (max_request_retries, and 403 and 429 added
to the error status codes). The loop below is therefore modelled from
the specification, with the configuration taken from the source. -/

/-- Result of one fetch of a submission URL: a successfully fetched
page, an HTTP error status, or a network-level error. -/
inductive FetchOutcome where
  | success (page : List Anchor)
  | status (code : Nat)
  | netError
deriving DecidableEq

/-- Retryable HTTP statuses: 403 and 429 (added by the source through
the additional error status codes of the crawler) and the 5xx range. -/
def retryableStatus (code : Nat) : Bool :=
  code == 403 || code == 429 || (500 ≤ code && code < 600)

/-- Is a fetch outcome retryable? Network errors and retryable
statuses are; a fetched page is not. -/
def fetchRetryable : FetchOutcome → Bool
  | .success _ => false
  | .status code => retryableStatus code
  | .netError => true

/-- Terminal state of one submission task. -/
inductive TaskOutcome where
  | Accepted (reddit_url article_url : String)
  | NotNews
  | MalformedPage
  | FatalStatus (code : Nat)
  | RetryExhausted
deriving DecidableEq

/-- Lift the extractor's verdict to the task's terminal state. -/
def extractionToOutcome : ExtractionResult → TaskOutcome
  | .Accepted r a => .Accepted r a
  | .NotNews => .NotNews
  | .MalformedPage => .MalformedPage

/-- Modelled from the spec: one turn of the scheduler loop for a
single task, the crawlee retry loop being outside the repository's
sources. fetch gives the outcome of each numbered attempt; remaining
is the re-enqueue budget still available, which starts at
maxRetries - (attempt_count + 1) and is consumed one unit per
retryable failure. A fetched page goes to the extractor and the task
ends with the extractor's verdict; a fatal status ends the task at
once; a retryable outcome retries while budget remains and otherwise
ends the task as retry-exhausted. The second component is the total
number of fetch attempts consumed. -/
def runTaskAux (fetch : Nat → FetchOutcome) (source_url : String) :
    Nat → Nat → TaskOutcome × Nat
  | 0, attemptCount =>
    match fetch attemptCount with
    | .success page =>
      (extractionToOutcome (default_handler source_url page), attemptCount + 1)
    | .netError => (.RetryExhausted, attemptCount + 1)
    | .status code =>
      if retryableStatus code then (.RetryExhausted, attemptCount + 1)
      else (.FatalStatus code, attemptCount + 1)
  | r + 1, attemptCount =>
    match fetch attemptCount with
    | .success page =>
      (extractionToOutcome (default_handler source_url page), attemptCount + 1)
    | .netError => runTaskAux fetch source_url r (attemptCount + 1)
    | .status code =>
      if retryableStatus code then runTaskAux fetch source_url r (attemptCount + 1)
      else (.FatalStatus code, attemptCount + 1)

/-- Modelled from the spec: run one task from a given attempt count,
retrying up to maxRetries total attempts. A retryable failure on
attempt c re-enqueues exactly when c + 1 < maxRetries, so the budget
of further attempts is maxRetries - (attemptCount + 1). -/
def runTask (fetch : Nat → FetchOutcome) (source_url : String)
    (maxRetries attemptCount : Nat) : TaskOutcome × Nat :=
  runTaskAux fetch source_url (maxRetries - (attemptCount + 1)) attemptCount

/-- A record pushed to the dataset, as built by default_handler. -/
structure ResultRecord where
  reddit_url : String
  article_url : String
deriving DecidableEq

/-- The record a task contributes to the dataset: its push when it is
accepted, nothing when it is dropped. world gives each URL's fetch
outcomes per attempt. -/
def taskRecord (world : String → Nat → FetchOutcome) (maxRetries : Nat)
    (url : String) : Option ResultRecord :=
  match (runTask (world url) url maxRetries 0).1 with
  | .Accepted r a => some ⟨r, a⟩
  | _ => none

/-- Modelled from the spec: the scheduler runs every submission link
as its own task and the dataset collects the accepted records. The
serial order matches the task list; the aggregation below is
order-insensitive up to last-write-wins. -/
def runTasks (world : String → Nat → FetchOutcome) (maxRetries : Nat)
    (urls : List String) : List ResultRecord :=
  urls.filterMap (taskRecord world maxRetries)

/-! ## Result aggregation (the url_mapping loop of scrape) -/

/-- One Python dict assignment on an association list: overwrite in
place when the key is present, append otherwise. -/
def insertLWW (m : List (String × String)) (k v : String) :
    List (String × String) :=
  if m.any (fun p => p.1 == k) then
    m.map (fun p => if p.1 == k then (k, v) else p)
  else m ++ [(k, v)]

/-- The aggregation loop of scrape: url_mapping starts empty and each
dataset record assigns its article URL under its reddit URL,
last write winning. -/
def aggregate (records : List ResultRecord) : List (String × String) :=
  records.foldl (fun m r => insertLWW m r.reddit_url r.article_url) []

/-- Dictionary lookup on the mapping. -/
def lookupMapping (m : List (String × String)) (k : String) :
    Option String :=
  (m.find? (fun p => p.1 == k)).map Prod.snd

/-! ## The feed document, scrape, and main -/

/-- A feed entry as the filter loop of main sees it: the href of its
link element, and everything else in the entry, which the loop never
touches, abstracted as rest. -/
structure Entry (α : Type) where
  linkHref : String
  rest : α
deriving DecidableEq

/-- The parsed feed document: its entries in feed order and the
non-entry content of the XML tree. -/
structure FeedDoc (α β : Type) where
  entries : List (Entry α)
  rest : β
deriving DecidableEq

/-- The single HTTP GET of the feed URL: either a response carrying a
status code and the feed document parsed from its body, or a
network-level error. -/
inductive FeedFetchResult (α β : Type) where
  | response (status : Nat) (doc : FeedDoc α β)
  | netError

/-- scrape from the source: fetch the feed once and raise for a
non-success status, with no retry; parse the entries' links; run the
crawl over them; and build url_mapping from the dataset records. The
error value models the exception propagating to the caller. -/
def scrape {α β : Type} (feed : FeedFetchResult α β)
    (world : String → Nat → FetchOutcome) (maxRetries : Nat) :
    Except Unit (FeedDoc α β × List (String × String)) :=
  match feed with
  | .netError => .error ()
  | .response status doc =>
    if 200 ≤ status ∧ status < 300 then
      .ok (doc,
        aggregate (runTasks world maxRetries (doc.entries.map Entry.linkHref)))
    else .error ()

/-- The entry loop of main: walk the entries in feed order; rewrite an
entry's link href to the mapped article URL when the href is a key of
the mapping, and remove the entry when the lookup raises KeyError. -/
def filterEntries {α : Type} (mapping : List (String × String)) :
    List (Entry α) → List (Entry α)
  | [] => []
  | e :: rest =>
    match lookupMapping mapping e.linkHref with
    | some article_url => { e with linkHref := article_url } :: filterEntries mapping rest
    | none => filterEntries mapping rest

/-- Apply the entry loop to the document; the rest of the tree is
serialized unchanged. -/
def filterFeed {α β : Type} (mapping : List (String × String))
    (doc : FeedDoc α β) : FeedDoc α β :=
  { entries := filterEntries mapping doc.entries, rest := doc.rest }

/-- main from the source: run scrape, and on success filter the feed
document with the mapping and write it out; when scrape raises, the
error propagates and no output file is written, modelled as none. -/
def main {α β : Type} (feed : FeedFetchResult α β)
    (world : String → Nat → FetchOutcome) (maxRetries : Nat) :
    Option (FeedDoc α β) :=
  match scrape feed world maxRetries with
  | .error _ => none
  | .ok (doc, url_mapping) => some (filterFeed url_mapping doc)

/-! ## Concrete fixtures
Small concrete pages and worlds used to instantiate the theorems at
closed inputs. -/

/-- A flair-filter anchor whose f parameter decodes to the News
sentinel. -/
def flairAnchorNews : Anchor :=
  { href := some
      "https://www.reddit.com/r/formula1/?f=flair_name%3A%22%3Apost-news%3A+News%22"
    ariaLabel := none, target := none, rel := none }

/-- A flair-filter anchor carrying a non-news flair. -/
def flairAnchorOther : Anchor :=
  { href := some "https://www.reddit.com/r/formula1/?f=flair_name%3AOther"
    ariaLabel := none, target := none, rel := none }

/-- An outbound-article anchor. -/
def articleAnchorX : Anchor :=
  { href := some "https://example.com/article"
    ariaLabel := some "Article", target := some "_blank"
    rel := some "nofollow noopener" }

/-- A news submission page with an outbound article link. -/
def newsPage : List Anchor := [flairAnchorNews, articleAnchorX]

/-- A submission page with a non-news flair. -/
def otherPage : List Anchor := [flairAnchorOther, articleAnchorX]

/-- A world in which every fetch returns the news page. -/
def newsWorld : String → Nat → FetchOutcome :=
  fun _ _ => FetchOutcome.success newsPage

/-- A world in which every fetch returns the non-news page. -/
def otherWorld : String → Nat → FetchOutcome :=
  fun _ _ => FetchOutcome.success otherPage

/-- A world in which every fetch is rate-limited with status 429. -/
def retryWorld : String → Nat → FetchOutcome :=
  fun _ _ => FetchOutcome.status 429

/-- A world in which every fetch is answered 404. -/
def fatalWorld : String → Nat → FetchOutcome :=
  fun _ _ => FetchOutcome.status 404

/-- An empty feed document over Nat payloads. -/
def emptyDocNat : FeedDoc Nat Nat := ⟨[], 0⟩

/-- A one-entry feed document over Nat payloads. -/
def doc1 : FeedDoc Nat Nat := ⟨[⟨"A", 0⟩], 0⟩

/-- The mapping scrape builds for doc1 in the news world. -/
def mapping1 : List (String × String) :=
  aggregate (runTasks newsWorld 3 (doc1.entries.map Entry.linkHref))

/-! ## Helper lemmas -/

/-- The extractor only accepts with the source URL it was given. -/
theorem default_handler_accepted (u : String) (soup : List Anchor) (r a : String)
    (h : default_handler u soup = ExtractionResult.Accepted r a) : r = u := by
  unfold default_handler at h
  split at h
  · simp at h
  · split at h
    · simp at h
    · split at h
      · simp at h
      · split at h
        · simp at h
        · injection h with h1 _
          exact h1.symm

/-- Lifting preserves the accepted shape. -/
theorem extractionToOutcome_accepted (e : ExtractionResult) (r a : String)
    (h : extractionToOutcome e = TaskOutcome.Accepted r a) :
    e = ExtractionResult.Accepted r a := by
  cases e <;> simp_all [extractionToOutcome]

/-- A successful fetch ends the task with the extractor's verdict and
one more attempt consumed. -/
theorem runTaskAux_success (fetch : Nat → FetchOutcome) (u : String)
    (rem c : Nat) (page : List Anchor)
    (h : fetch c = FetchOutcome.success page) :
    runTaskAux fetch u rem c =
      (extractionToOutcome (default_handler u page), c + 1) := by
  cases rem with
  | zero => simp only [runTaskAux]; rw [h]
  | succ r => simp only [runTaskAux]; rw [h]

/-- A fatal status ends the task at once. -/
theorem runTaskAux_fatal (fetch : Nat → FetchOutcome) (u : String)
    (rem c code : Nat) (h : fetch c = FetchOutcome.status code)
    (hc : retryableStatus code = false) :
    runTaskAux fetch u rem c = (TaskOutcome.FatalStatus code, c + 1) := by
  cases rem with
  | zero => simp only [runTaskAux]; rw [h]; simp [hc]
  | succ r => simp only [runTaskAux]; rw [h]; simp [hc]

/-- A retryable outcome with no budget left ends the task as
retry-exhausted. -/
theorem runTaskAux_exhaust0 (fetch : Nat → FetchOutcome) (u : String)
    (c : Nat) (h : fetchRetryable (fetch c) = true) :
    runTaskAux fetch u 0 c = (TaskOutcome.RetryExhausted, c + 1) := by
  cases hf : fetch c with
  | success page => rw [hf] at h; simp [fetchRetryable] at h
  | netError => simp only [runTaskAux]; rw [hf]
  | status code =>
    have hr : retryableStatus code = true := by rw [hf] at h; exact h
    simp only [runTaskAux]
    rw [hf]
    simp [hr]

/-- A retryable outcome with budget left consumes one budget unit and
moves to the next attempt. -/
theorem runTaskAux_retry_step (fetch : Nat → FetchOutcome) (u : String)
    (r c : Nat) (h : fetchRetryable (fetch c) = true) :
    runTaskAux fetch u (r + 1) c = runTaskAux fetch u r (c + 1) := by
  cases hf : fetch c with
  | success page => rw [hf] at h; simp [fetchRetryable] at h
  | netError => simp only [runTaskAux]; rw [hf]
  | status code =>
    have hr : retryableStatus code = true := by rw [hf] at h; exact h
    simp only [runTaskAux]
    rw [hf]
    simp [hr]

/-- When every attempt is retryable the task exhausts its whole budget
and ends as retry-exhausted, having consumed budget-plus-one fetches. -/
theorem runTaskAux_all_retryable (fetch : Nat → FetchOutcome) (u : String)
    (h : ∀ i, fetchRetryable (fetch i) = true) :
    ∀ rem c, runTaskAux fetch u rem c = (TaskOutcome.RetryExhausted, c + rem + 1) := by
  intro rem
  induction rem with
  | zero => intro c; exact runTaskAux_exhaust0 fetch u c (h c)
  | succ r ih =>
    intro c
    rw [runTaskAux_retry_step fetch u r c (h c), ih (c + 1)]
    have : c + 1 + r + 1 = c + (r + 1) + 1 := by omega
    rw [this]

/-- Skipping over a run of retryable attempts. -/
theorem runTaskAux_skip (fetch : Nat → FetchOutcome) (u : String) :
    ∀ (k rem c : Nat), (∀ i, i < k → fetchRetryable (fetch (c + i)) = true) →
      k ≤ rem →
      runTaskAux fetch u rem c = runTaskAux fetch u (rem - k) (c + k) := by
  intro k
  induction k with
  | zero => intro rem c _ _; simp
  | succ k ih =>
    intro rem c hr hk
    obtain ⟨r, rfl⟩ : ∃ r, rem = r + 1 := ⟨rem - 1, by omega⟩
    rw [runTaskAux_retry_step fetch u r c (by simpa using hr 0 (by omega))]
    have h2 : ∀ i, i < k → fetchRetryable (fetch (c + 1 + i)) = true := by
      intro i hi
      have := hr (i + 1) (by omega)
      have harith : c + (i + 1) = c + 1 + i := by omega
      rwa [harith] at this
    rw [ih r (c + 1) h2 (by omega)]
    have e1 : r - k = r + 1 - (k + 1) := by omega
    have e2 : c + 1 + k = c + (k + 1) := by omega
    rw [e1, e2]

/-- A task can only end accepted under its own URL. -/
theorem runTaskAux_accepted (fetch : Nat → FetchOutcome) (u : String) :
    ∀ (rem c : Nat) (r a : String),
      (runTaskAux fetch u rem c).1 = TaskOutcome.Accepted r a → r = u := by
  intro rem
  induction rem with
  | zero =>
    intro c r a h
    cases hf : fetch c with
    | success page =>
      rw [runTaskAux_success fetch u 0 c page hf] at h
      exact (default_handler_accepted u page r a
        (extractionToOutcome_accepted _ r a h)).symm ▸ rfl
    | netError =>
      rw [runTaskAux_exhaust0 fetch u c (by simp [fetchRetryable, hf])] at h
      simp at h
    | status code =>
      by_cases hr : retryableStatus code = true
      · rw [runTaskAux_exhaust0 fetch u c (by simp [fetchRetryable, hf, hr])] at h
        simp at h
      · rw [runTaskAux_fatal fetch u 0 c code hf (by simpa using hr)] at h
        simp at h
  | succ rr ih =>
    intro c r a h
    cases hf : fetch c with
    | success page =>
      rw [runTaskAux_success fetch u (rr + 1) c page hf] at h
      exact default_handler_accepted u page r a
        (extractionToOutcome_accepted _ r a h)
    | netError =>
      rw [runTaskAux_retry_step fetch u rr c (by simp [fetchRetryable, hf])] at h
      exact ih (c + 1) r a h
    | status code =>
      by_cases hr : retryableStatus code = true
      · rw [runTaskAux_retry_step fetch u rr c (by simp [fetchRetryable, hf, hr])] at h
        exact ih (c + 1) r a h
      · rw [runTaskAux_fatal fetch u (rr + 1) c code hf (by simpa using hr)] at h
        simp at h

/-- runTask variant of the accepted-URL lemma. -/
theorem runTask_accepted (fetch : Nat → FetchOutcome) (u : String)
    (m c : Nat) (r a : String)
    (h : (runTask fetch u m c).1 = TaskOutcome.Accepted r a) : r = u :=
  runTaskAux_accepted fetch u (m - (c + 1)) c r a h

/-- A task contributes a record exactly when it is accepted, and the
record carries the task's URL. -/
theorem taskRecord_some (world : String → Nat → FetchOutcome)
    (maxRetries : Nat) (url : String) (r : ResultRecord)
    (h : taskRecord world maxRetries url = some r) :
    r.reddit_url = url ∧
      (runTask (world url) url maxRetries 0).1 =
        TaskOutcome.Accepted url r.article_url := by
  unfold taskRecord at h
  split at h
  case h_1 r' a' heq =>
    injection h with h'
    subst h'
    have hru : r' = url := runTask_accepted (world url) url maxRetries 0 r' a' heq
    subst hru
    exact ⟨rfl, heq⟩
  case h_2 => cases h

/-- Every dataset record comes from a task of the input URL list whose
run was accepted under that URL. -/
theorem runTasks_mem (world : String → Nat → FetchOutcome)
    (maxRetries : Nat) (urls : List String) (r : ResultRecord)
    (h : r ∈ runTasks world maxRetries urls) :
    r.reddit_url ∈ urls ∧
      (runTask (world r.reddit_url) r.reddit_url maxRetries 0).1 =
        TaskOutcome.Accepted r.reddit_url r.article_url := by
  unfold runTasks at h
  rcases List.mem_filterMap.mp h with ⟨u, hu, hrec⟩
  rcases taskRecord_some world maxRetries u r hrec with ⟨h1, h2⟩
  rw [h1]
  exact ⟨hu, h2⟩

/-- One dict assignment adds no key beyond the assigned one. -/
theorem insertLWW_keys (m : List (String × String)) (k v p : String)
    (h : p ∈ (insertLWW m k v).map Prod.fst) : p ∈ m.map Prod.fst ∨ p = k := by
  unfold insertLWW at h
  split at h
  · left
    have hkeys :
        (m.map (fun q => if q.1 == k then (k, v) else q)).map Prod.fst =
          m.map Prod.fst := by
      rw [List.map_map]
      apply List.map_congr_left
      intro q _
      by_cases hqk : (q.1 == k) = true
      · simp only [Function.comp_apply, hqk, if_pos]
        exact (beq_iff_eq.mp hqk).symm
      · simp only [Function.comp_apply, hqk]
        simp
    rwa [hkeys] at h
  · rw [List.map_append] at h
    rcases List.mem_append.mp h with h1 | h2
    · exact Or.inl h1
    · right
      simpa using h2

/-- Keys of the aggregation fold come from the seed or the records. -/
theorem aggregate_foldl_keys (records : List ResultRecord) :
    ∀ (m : List (String × String)) (k : String),
      k ∈ (records.foldl
            (fun acc r => insertLWW acc r.reddit_url r.article_url) m).map Prod.fst →
      k ∈ m.map Prod.fst ∨ ∃ r, r ∈ records ∧ r.reddit_url = k := by
  induction records with
  | nil =>
    intro m k h
    exact Or.inl h
  | cons r rs ih =>
    intro m k h
    rw [List.foldl_cons] at h
    rcases ih _ k h with h1 | ⟨r', hr', hk⟩
    · rcases insertLWW_keys m r.reddit_url r.article_url k h1 with h2 | h2
      · exact Or.inl h2
      · exact Or.inr ⟨r, List.mem_cons_self r rs, h2.symm⟩
    · exact Or.inr ⟨r', List.mem_cons_of_mem r hr', hk⟩

/-- Every key of the aggregated mapping is the reddit URL of some
dataset record. -/
theorem aggregate_keys (records : List ResultRecord) (k : String)
    (h : k ∈ (aggregate records).map Prod.fst) :
    ∃ r, r ∈ records ∧ r.reddit_url = k := by
  rcases aggregate_foldl_keys records [] k h with h1 | h2
  · simp at h1
  · exact h2

/-- A URL whose task is never accepted is not a key of the output
mapping. -/
theorem notKey_of_not_accepted (world : String → Nat → FetchOutcome)
    (maxRetries : Nat) (urls : List String) (u : String)
    (h : ∀ a, (runTask (world u) u maxRetries 0).1 ≠ TaskOutcome.Accepted u a) :
    u ∉ (aggregate (runTasks world maxRetries urls)).map Prod.fst := by
  intro hmem
  rcases aggregate_keys _ u hmem with ⟨r, hr, hk⟩
  rcases runTasks_mem world maxRetries urls r hr with ⟨_, hacc⟩
  rw [hk] at hacc
  exact h r.article_url hacc

/-- A URL whose task is never accepted contributes no dataset
record. -/
theorem noRecord_of_not_accepted (world : String → Nat → FetchOutcome)
    (maxRetries : Nat) (urls : List String) (u : String)
    (h : ∀ a, (runTask (world u) u maxRetries 0).1 ≠ TaskOutcome.Accepted u a) :
    ∀ r, r ∈ runTasks world maxRetries urls → r.reddit_url ≠ u := by
  intro r hr hru
  rcases runTasks_mem world maxRetries urls r hr with ⟨_, hacc⟩
  rw [hru] at hacc
  exact h r.article_url hacc

/-- A page without the flair-filter anchor is malformed for the
extractor. -/
theorem default_handler_malformed_flair (u : String) (soup : List Anchor)
    (h : selectOne flairSelector soup = none) :
    default_handler u soup = ExtractionResult.MalformedPage := by
  unfold default_handler flair_f_value
  rw [h]

/-- A news page without the outbound-article anchor is malformed for
the extractor. -/
theorem default_handler_malformed_article (u : String) (soup : List Anchor)
    (hf : flair_f_value soup = some newsSentinel)
    (ha : selectOne articleSelector soup = none) :
    default_handler u soup = ExtractionResult.MalformedPage := by
  unfold default_handler
  rw [hf]
  simp [ha]

/-- A page whose extracted f parameter differs from the sentinel is
classified NotNews. -/
theorem default_handler_not_news (u : String) (soup : List Anchor) (v : String)
    (hf : flair_f_value soup = some v) (hv : v ≠ newsSentinel) :
    default_handler u soup = ExtractionResult.NotNews := by
  unfold default_handler
  rw [hf]
  simp [hv]

/-- The frame of the filter loop: the non-link content of surviving
entries is an in-order sublist of the input's. -/
theorem filterEntries_rest_sublist {α : Type} (mapping : List (String × String)) :
    ∀ l : List (Entry α),
      List.Sublist ((filterEntries mapping l).map Entry.rest) (l.map Entry.rest) := by
  intro l
  induction l with
  | nil => simp [filterEntries]
  | cons e rest ih =>
    unfold filterEntries
    cases lookupMapping mapping e.linkHref with
    | none =>
      simp only [List.map_cons]
      exact ih.cons e.rest
    | some article_url =>
      simp only [List.map_cons]
      exact ih.cons₂ e.rest

/-- Every surviving entry is a rewritten input entry. -/
theorem filterEntries_mem {α : Type} (mapping : List (String × String)) :
    ∀ (l : List (Entry α)) (e2 : Entry α), e2 ∈ filterEntries mapping l →
      ∃ e, e ∈ l ∧ e2.rest = e.rest ∧
        lookupMapping mapping e.linkHref = some e2.linkHref := by
  intro l
  induction l with
  | nil => intro e2 h; simp [filterEntries] at h
  | cons e rest ih =>
    intro e2 h
    unfold filterEntries at h
    cases hl : lookupMapping mapping e.linkHref with
    | none =>
      rw [hl] at h
      rcases ih e2 h with ⟨e3, he3, hr, hm⟩
      exact ⟨e3, List.mem_cons_of_mem e he3, hr, hm⟩
    | some article_url =>
      rw [hl] at h
      rcases List.mem_cons.mp h with h1 | h1
      · subst h1
        exact ⟨e, List.mem_cons_self e rest, rfl, hl⟩
      · rcases ih e2 h1 with ⟨e3, he3, hr, hm⟩
        exact ⟨e3, List.mem_cons_of_mem e he3, hr, hm⟩

/-- Inversion of a successful scrape: the feed fetch returned a
success status carrying the document, and the mapping is the
aggregation of the crawl over the document's entry links. -/
theorem scrape_ok {α β : Type} (feed : FeedFetchResult α β)
    (world : String → Nat → FetchOutcome) (m : Nat)
    (doc : FeedDoc α β) (mapping : List (String × String))
    (h : scrape feed world m = Except.ok (doc, mapping)) :
    ∃ s, feed = FeedFetchResult.response s doc ∧ (200 ≤ s ∧ s < 300) ∧
      mapping = aggregate (runTasks world m (doc.entries.map Entry.linkHref)) := by
  cases feed with
  | netError => cases h
  | response s d =>
    simp only [scrape] at h
    split at h
    · injection h with h1
      injection h1 with h2 h3
      subst h2
      exact ⟨s, rfl, by assumption, h3.symm⟩
    · cases h

/-! ## Claims -/

/-- C1: for every input feed, every key of the final UrlMapping
returned by scrape is a URL that appeared in the list of submission
links parsed from the feed's entries, and the task run for that key
ended accepted; in particular no key belongs to a task that ended
NotNews, MalformedPage, with a fatal status, or retry-exhausted. -/
theorem C1_mapping_keys {α β : Type} (feed : FeedFetchResult α β)
    (world : String → Nat → FetchOutcome) (m : Nat)
    (doc : FeedDoc α β) (mapping : List (String × String)) (k : String)
    (code : Nat)
    (hs : scrape feed world m = Except.ok (doc, mapping))
    (hk : k ∈ mapping.map Prod.fst) :
    k ∈ doc.entries.map Entry.linkHref ∧
    (∃ a, (runTask (world k) k m 0).1 = TaskOutcome.Accepted k a) ∧
    (runTask (world k) k m 0).1 ≠ TaskOutcome.NotNews ∧
    (runTask (world k) k m 0).1 ≠ TaskOutcome.MalformedPage ∧
    (runTask (world k) k m 0).1 ≠ TaskOutcome.RetryExhausted ∧
    (runTask (world k) k m 0).1 ≠ TaskOutcome.FatalStatus code := by
  rcases scrape_ok feed world m doc mapping hs with ⟨s, _, _, hmap⟩
  subst hmap
  rcases aggregate_keys _ k hk with ⟨r, hr, hrk⟩
  rcases runTasks_mem world m _ r hr with ⟨hmem, hacc⟩
  rw [hrk] at hmem hacc
  refine ⟨hmem, ⟨r.article_url, hacc⟩, ?_, ?_, ?_, ?_⟩ <;> rw [hacc] <;> simp

/-- C2: a successfully fetched page missing an expected DOM element
(the flair-filter anchor, or, on a news page, the outbound-article
anchor) is classified MalformedPage; the task ends with exactly one
fetch attempt, so the successful fetch is never retried, and the task
is dropped silently with no record pushed and no key in the output
mapping. -/
theorem C2_malformed_page_dropped (world : String → Nat → FetchOutcome)
    (u : String) (page : List Anchor) (m : Nat) (urls : List String)
    (hsucc : world u 0 = FetchOutcome.success page)
    (habsent : selectOne flairSelector page = none ∨
      (flair_f_value page = some newsSentinel ∧
        selectOne articleSelector page = none)) :
    default_handler u page = ExtractionResult.MalformedPage ∧
    runTask (world u) u m 0 = (TaskOutcome.MalformedPage, 1) ∧
    taskRecord world m u = none ∧
    u ∉ (aggregate (runTasks world m urls)).map Prod.fst := by
  have hmal : default_handler u page = ExtractionResult.MalformedPage := by
    rcases habsent with h | ⟨h1, h2⟩
    · exact default_handler_malformed_flair u page h
    · exact default_handler_malformed_article u page h1 h2
  have hrun : runTask (world u) u m 0 = (TaskOutcome.MalformedPage, 1) := by
    unfold runTask
    rw [runTaskAux_success (world u) u (m - (0 + 1)) 0 page hsucc, hmal]
    rfl
  have hrec : taskRecord world m u = none := by
    unfold taskRecord
    rw [hrun]
  refine ⟨hmal, hrun, hrec, notKey_of_not_accepted world m urls u ?_⟩
  intro a
  rw [hrun]
  simp

/-- C3: on a fetched submission page whose first f query-parameter
value differs from the News sentinel, the extractor returns NotNews,
the task ends NotNews, no ResultRecord is pushed for the task, and its
URL never appears in the output mapping, whatever the flair string
is. -/
theorem C3_non_news_never_mapped (world : String → Nat → FetchOutcome)
    (m : Nat) (urls : List String) (u v : String) (page : List Anchor)
    (c : Nat)
    (hbefore : ∀ i, i < c → fetchRetryable (world u i) = true)
    (hreach : c = 0 ∨ c < m)
    (hsucc : world u c = FetchOutcome.success page)
    (hf : flair_f_value page = some v)
    (hv : v ≠ newsSentinel) :
    default_handler u page = ExtractionResult.NotNews ∧
    (runTask (world u) u m 0).1 = TaskOutcome.NotNews ∧
    taskRecord world m u = none ∧
    u ∉ (aggregate (runTasks world m urls)).map Prod.fst := by
  have hnn : default_handler u page = ExtractionResult.NotNews :=
    default_handler_not_news u page v hf hv
  have hrun : (runTask (world u) u m 0).1 = TaskOutcome.NotNews := by
    show (runTaskAux (world u) u (m - 1) 0).1 = TaskOutcome.NotNews
    have hskip := runTaskAux_skip (world u) u c (m - 1) 0
      (by intro i hi; simpa using hbefore i hi)
      (by rcases hreach with h | h <;> omega)
    rw [hskip, Nat.zero_add,
      runTaskAux_success (world u) u (m - 1 - c) c page hsucc, hnn]
    rfl
  have hrec : taskRecord world m u = none := by
    unfold taskRecord
    rw [hrun]
  refine ⟨hnn, hrun, hrec, notKey_of_not_accepted world m urls u ?_⟩
  intro a
  rw [hrun]
  simp

/-- C4: a task every one of whose fetch attempts is answered with a
retryable outcome (403, 429, 5xx, or a network error) ends
retry-exhausted after exactly max_request_retries attempts, never
more, and is dropped silently with no entry in the output mapping. -/
theorem C4_retry_exhaustion (world : String → Nat → FetchOutcome)
    (m : Nat) (urls : List String) (u : String)
    (hm : 1 ≤ m)
    (hr : ∀ i, fetchRetryable (world u i) = true) :
    runTask (world u) u m 0 = (TaskOutcome.RetryExhausted, m) ∧
    u ∉ (aggregate (runTasks world m urls)).map Prod.fst := by
  have hrun : runTask (world u) u m 0 = (TaskOutcome.RetryExhausted, m) := by
    unfold runTask
    rw [runTaskAux_all_retryable (world u) u hr (m - (0 + 1)) 0]
    congr 1
    omega
  refine ⟨hrun, notKey_of_not_accepted world m urls u ?_⟩
  intro a
  rw [hrun]
  simp

/-- C5: a task whose fetch is answered with a fatal HTTP status, such
as 404, ends at once with exactly one fetch attempt, is not retried,
and its URL never appears in the output mapping. -/
theorem C5_fatal_status (world : String → Nat → FetchOutcome)
    (m : Nat) (urls : List String) (u : String) (code : Nat)
    (hst : world u 0 = FetchOutcome.status code)
    (hfatal : retryableStatus code = false) :
    runTask (world u) u m 0 = (TaskOutcome.FatalStatus code, 1) ∧
    u ∉ (aggregate (runTasks world m urls)).map Prod.fst := by
  have hrun : runTask (world u) u m 0 = (TaskOutcome.FatalStatus code, 1) := by
    unfold runTask
    exact runTaskAux_fatal (world u) u (m - (0 + 1)) 0 code hst hfatal
  refine ⟨hrun, notKey_of_not_accepted world m urls u ?_⟩
  intro a
  rw [hrun]
  simp

/-- C6: duplicate submission URLs in the feed are distinct crawl
tasks; each occurrence runs its own fetch-extract cycle, so an
accepted URL contributes one dataset record per occurrence in the
input list. -/
theorem C6_duplicates_distinct_tasks (world : String → Nat → FetchOutcome)
    (m : Nat) (urls : List String) (u a : String)
    (hacc : (runTask (world u) u m 0).1 = TaskOutcome.Accepted u a) :
    (runTasks world m urls).count ⟨u, a⟩ = urls.count u := by
  induction urls with
  | nil => rfl
  | cons x xs ih =>
    have hstep : runTasks world m (x :: xs) =
        match taskRecord world m x with
        | some r => r :: runTasks world m xs
        | none => runTasks world m xs := by
      unfold runTasks
      rw [List.filterMap_cons]
      cases taskRecord world m x <;> rfl
    rw [hstep]
    by_cases hxu : x = u
    · subst hxu
      have hrx : taskRecord world m x = some ⟨x, a⟩ := by
        unfold taskRecord
        rw [hacc]
      rw [hrx, List.count_cons_self, List.count_cons_self, ih]
    · have hne : u ≠ x := fun h => hxu h.symm
      cases hrec : taskRecord world m x with
      | none => rw [List.count_cons_of_ne hne, ih]
      | some r =>
        have hrx : r.reddit_url = x := (taskRecord_some world m x r hrec).1
        have hner : (⟨u, a⟩ : ResultRecord) ≠ r := by
          intro hcontra
          rw [← hcontra] at hrx
          exact hne hrx
        rw [List.count_cons_of_ne hner, List.count_cons_of_ne hne, ih]

/-- C7: when the single HTTP GET of the feed URL fails, with a
non-success status or a network error, scrape raises, the error
propagates to main, no output document is produced, and the result
does not depend on the crawl world, so no crawling is observable. -/
theorem C7_feed_failure_aborts {α β : Type} (feed : FeedFetchResult α β)
    (m : Nat) (world world2 : String → Nat → FetchOutcome)
    (hfail : ∀ s doc, feed = FeedFetchResult.response s doc →
      ¬(200 ≤ s ∧ s < 300)) :
    scrape feed world m = Except.error () ∧
    main feed world m = none ∧
    scrape feed world m = scrape feed world2 m := by
  have herr : ∀ w : String → Nat → FetchOutcome,
      scrape feed w m = Except.error () := by
    intro w
    cases feed with
    | netError => rfl
    | response s doc =>
      simp only [scrape]
      rw [if_neg (hfail s doc rfl)]
  have hmain : main feed world m = none := by
    unfold main
    rw [herr world]
  exact ⟨herr world, hmain, by rw [herr world, herr world2]⟩

/-- C8: the feed filter walks the entries in feed order; an entry
whose link is a key of the mapping survives with its link rewritten to
the mapped article URL, and an entry whose link is not a key is
removed from the output document. -/
theorem C8_feed_filter {α β : Type} (mapping : List (String × String))
    (doc : FeedDoc α β) :
    (filterFeed mapping doc).entries =
      (doc.entries.filter
          (fun e => (lookupMapping mapping e.linkHref).isSome)).map
        (fun e =>
          { e with linkHref := (lookupMapping mapping e.linkHref).getD e.linkHref }) := by
  show filterEntries mapping doc.entries = _
  induction doc.entries with
  | nil => rfl
  | cons e rest ih =>
    unfold filterEntries
    cases hl : lookupMapping mapping e.linkHref with
    | none => simp [List.filter_cons, hl, ih]
    | some article_url => simp [List.filter_cons, hl, ih]

/-- C9: extraction is deterministic; two runs of the extractor on the
same HTML document and source URL yield the same ExtractionResult,
the extractor being a pure function of the page content with no
network or mutable state in its embedding. -/
theorem C9_extractor_deterministic (source_url : String) (soup : List Anchor) :
    default_handler source_url soup = default_handler source_url soup := rfl

/-- C10: the frame of the feed filter; every entry it retains keeps
everything but the link href unchanged, the retained entries appear in
their original relative order, and the non-entry content of the
document is untouched. -/
theorem C10_filter_frame {α β : Type} (mapping : List (String × String))
    (doc : FeedDoc α β) :
    List.Sublist ((filterFeed mapping doc).entries.map Entry.rest)
      (doc.entries.map Entry.rest) ∧
    (∀ e2, e2 ∈ (filterFeed mapping doc).entries → ∃ e, e ∈ doc.entries ∧
      e2.rest = e.rest ∧ lookupMapping mapping e.linkHref = some e2.linkHref) ∧
    (filterFeed mapping doc).rest = doc.rest :=
  ⟨filterEntries_rest_sublist mapping doc.entries,
   filterEntries_mem mapping doc.entries, rfl⟩

/-! ## Witnesses -/

/-- Witness for C1 at a one-entry feed resolved in the news world. -/
theorem C1_mapping_keys_witness :
    "A" ∈ doc1.entries.map Entry.linkHref ∧
    (∃ a, (runTask (newsWorld "A") "A" 3 0).1 = TaskOutcome.Accepted "A" a) ∧
    (runTask (newsWorld "A") "A" 3 0).1 ≠ TaskOutcome.NotNews ∧
    (runTask (newsWorld "A") "A" 3 0).1 ≠ TaskOutcome.MalformedPage ∧
    (runTask (newsWorld "A") "A" 3 0).1 ≠ TaskOutcome.RetryExhausted ∧
    (runTask (newsWorld "A") "A" 3 0).1 ≠ TaskOutcome.FatalStatus 404 :=
  C1_mapping_keys (FeedFetchResult.response 200 doc1) newsWorld 3 doc1
    mapping1 "A" 404 rfl (by decide)

/-- Witness for C2 at a successfully fetched page with no anchors. -/
theorem C2_malformed_page_dropped_witness :
    default_handler "M" [] = ExtractionResult.MalformedPage ∧
    runTask (fun _ => FetchOutcome.success []) "M" 3 0 =
      (TaskOutcome.MalformedPage, 1) ∧
    taskRecord (fun _ _ => FetchOutcome.success []) 3 "M" = none ∧
    "M" ∉ (aggregate (runTasks (fun _ _ => FetchOutcome.success []) 3
      ["M"])).map Prod.fst :=
  C2_malformed_page_dropped (fun _ _ => FetchOutcome.success []) "M" [] 3
    ["M"] rfl (Or.inl rfl)

/-- Witness for C3 at a page carrying a non-news flair. -/
theorem C3_non_news_never_mapped_witness :
    default_handler "B" otherPage = ExtractionResult.NotNews ∧
    (runTask (otherWorld "B") "B" 3 0).1 = TaskOutcome.NotNews ∧
    taskRecord otherWorld 3 "B" = none ∧
    "B" ∉ (aggregate (runTasks otherWorld 3 ["B"])).map Prod.fst :=
  C3_non_news_never_mapped otherWorld 3 ["B"] "B" "flair_name:Other"
    otherPage 0 (fun i hi => absurd hi (Nat.not_lt_zero i)) (Or.inl rfl)
    rfl (by decide) (by decide)

/-- Witness for C4 at a task rate-limited on every attempt. -/
theorem C4_retry_exhaustion_witness :
    runTask (retryWorld "R") "R" 3 0 = (TaskOutcome.RetryExhausted, 3) ∧
    "R" ∉ (aggregate (runTasks retryWorld 3 ["R"])).map Prod.fst :=
  C4_retry_exhaustion retryWorld 3 ["R"] "R" (by decide) (fun _ => rfl)

/-- Witness for C5 at a task answered 404. -/
theorem C5_fatal_status_witness :
    runTask (fatalWorld "F") "F" 3 0 = (TaskOutcome.FatalStatus 404, 1) ∧
    "F" ∉ (aggregate (runTasks fatalWorld 3 ["F"])).map Prod.fst :=
  C5_fatal_status fatalWorld 3 ["F"] "F" 404 rfl (by decide)

/-- Witness for C6 at a feed listing the same URL twice. -/
theorem C6_duplicates_distinct_tasks_witness :
    (runTasks newsWorld 3 ["A", "B", "A"]).count
        ⟨"A", "https://example.com/article"⟩ =
      (["A", "B", "A"] : List String).count "A" :=
  C6_duplicates_distinct_tasks newsWorld 3 ["A", "B", "A"] "A"
    "https://example.com/article" (by decide)

/-- Witness for C7 at a feed fetch answered 500. -/
theorem C7_feed_failure_aborts_witness :
    scrape (FeedFetchResult.response 500 emptyDocNat) newsWorld 3 =
      Except.error () ∧
    main (FeedFetchResult.response 500 emptyDocNat) newsWorld 3 = none ∧
    scrape (FeedFetchResult.response 500 emptyDocNat) newsWorld 3 =
      scrape (FeedFetchResult.response 500 emptyDocNat) fatalWorld 3 :=
  C7_feed_failure_aborts (FeedFetchResult.response 500 emptyDocNat) 3
    newsWorld fatalWorld
    (by intro s doc h; injection h with h1 h2; subst h1; omega)

end F1News
